import Mathlib

/-!
Shallow embedding of `src/server.js` (synthetix-node-backend): the nonce-based
challenge/response authenticator, the JWT authorization gate, the admin query
adapter, and the centralized error responder.

External collaborators (node:crypto sha1, ethers signature recovery and address
validation, jsonwebtoken, JSON.parse, the on-chain membership oracle) are
modelled as function parameters at their interface boundaries; everything that
is code of `server.js` is translated directly.
-/

namespace SynthetixNode

/-- An error value funnelled to the centralized responder: JS `Error`
objects always carry a `message` string; `code` is present only on
`HttpError` instances (line 21-26) or when an external error happens to
carry a numeric `code` field. -/
structure JsError where
  message : String
  code : Option Nat
  deriving DecidableEq, Repr

/-- `new HttpError(message, code)` (server.js lines 21-26). -/
def HttpError (message : String) (code : Nat) : JsError :=
  ⟨message, some code⟩

/-- JS truthiness fallback `x || d` for a possibly-absent numeric field:
`undefined` and `0` are falsy. -/
def jsOrNum : Option Nat → Nat → Nat
  | some n, d => if n = 0 then d else n
  | none, d => d

/-- JS truthiness fallback `s || d` for a string field: `""` is falsy. -/
def jsOrStr (s d : String) : String :=
  if s = "" then d else s

/-- The centralized error responder (lines 253-257):
`res.status(err.code || 500).send(err.message || 'Something went wrong')`. -/
def errorHandler (e : JsError) : Nat × String :=
  (jsOrNum e.code 500, jsOrStr e.message "Something went wrong")

/-- JS `String.prototype.toLowerCase`, modelled character-wise over the
string's character data (the addresses at issue are ASCII hex). -/
def jsToLowerCase (s : String) : String :=
  ⟨s.data.map Char.toLower⟩

/-- JS `String.prototype.split(' ')`: splits on every single space,
keeping empty fragments (`"a  b"` ↦ `["a", "", "b"]`, `""` ↦ `[""]`). -/
def jsSplitSpaceAux : List Char → List Char → List String
  | [], acc => [⟨acc.reverse⟩]
  | c :: cs, acc =>
    if c = ' ' then ⟨acc.reverse⟩ :: jsSplitSpaceAux cs []
    else jsSplitSpaceAux cs (c :: acc)

/-- JS `s.split(' ')`. -/
def jsSplitSpace (s : String) : List String :=
  jsSplitSpaceAux s.data []

/-- `generateNonce` (lines 60-64): sha1-hex digest of
`` `${address.toLowerCase()}:${process.env.SECRET}` ``.  The sha1 hex digest
(node:crypto, external) is the `digest` parameter. -/
def generateNonce (digest : String → String) (secret : String)
    (address : String) : String :=
  digest (jsToLowerCase address ++ ":" ++ secret)

/-- Outcome of a middleware chain that ends by sending a response or by
handing an error to the centralized responder via `next(err)`. -/
inductive Reply where
  | sent (status : Nat) (body : String)
  | failed (e : JsError)
  deriving DecidableEq, Repr

/-- The `POST /signup` pipeline (lines 45-74): `validateWalletAddress`
(missing / invalid checks, with JS falsiness of `""` for the missing
check), `transformWalletAddress` (lowercase in place), `createNonce`
(200 with the nonce; the reply body is the nonce string of the
`{ nonce }` payload).  `ethers.isAddress` is external: the `isAddress`
parameter. -/
def signupRoute (isAddress : String → Bool) (digest : String → String)
    (secret : String) (walletAddress : Option String) : Reply :=
  match walletAddress with
  | none => .failed (HttpError "Missing wallet address" 400)
  | some w =>
    if w = "" then .failed (HttpError "Missing wallet address" 400)
    else if !isAddress w then .failed (HttpError "Invalid wallet address" 400)
    else .sent 200 (generateNonce digest secret (jsToLowerCase w))

/-- Outcome of the `POST /verify` pipeline.  `token a` stands for the 200
response `{ token }` where the JWT payload's `walletAddress` claim is the
string `a` (`createJwtToken(res.locals.address)`, lines 109-124).
`failedThenTypeError e` records the path where `getAddressFromMessage`
(lines 90-96) catches a recovery error and calls `next(e)` — so the 400
is sent — but returns `undefined` to `verifyMessage` (line 99), which
does not stop: line 100 then calls `generateNonce(undefined)`, whose
`address.toLowerCase()` throws a `TypeError` after the response. -/
inductive VerifyOutcome where
  | token (walletAddress : String)
  | failed (e : JsError)
  | failedThenTypeError (e : JsError)
  deriving DecidableEq, Repr

/-- The `POST /verify` pipeline (lines 80-124):
`validateVerificationParameters` (presence of `nonce` and
`signedMessage`, JS falsiness), `getAddressFromMessage` /
`verifyMessage` (recovery, nonce recomputation and comparison with
`!==`), then the token-issuing handler.  `ethers.verifyMessage` is
external: `recover n sm` is `some a` when it returns address `a` and
`none` when it throws. -/
def verifyRoute (recover : String → String → Option String)
    (digest : String → String) (secret : String)
    (nonce signedMessage : Option String) : VerifyOutcome :=
  match nonce with
  | none => .failed (HttpError "Nonce not provided" 400)
  | some n =>
    if n = "" then .failed (HttpError "Nonce not provided" 400)
    else
      match signedMessage with
      | none => .failed (HttpError "Signed message not provided" 400)
      | some sm =>
        if sm = "" then .failed (HttpError "Signed message not provided" 400)
        else
          match recover n sm with
          | none => .failedThenTypeError (HttpError "Failed to verify message" 400)
          | some address =>
            if n ≠ generateNonce digest secret address then
              .failed (HttpError "Nonce mismatch" 400)
            else .token address

/-- The claims object signed into a session token:
`jwt.sign({ walletAddress }, ...)` (line 111). -/
structure JwtClaims where
  walletAddress : String
  deriving DecidableEq, Repr

/-- A decoded JWT: signed claims plus the registered `iat`/`exp` fields
jsonwebtoken adds, and the signature (modelled as the output of an
abstract mac). -/
structure Jwt where
  claims : JwtClaims
  iat : Nat
  exp : Nat
  sig : Nat
  deriving DecidableEq, Repr

/-- `createJwtToken` (lines 109-116) at the jsonwebtoken boundary:
`expiresIn: '1d'` sets `exp = iat + 86400` (seconds); the token is
signed with the server's `JWT_SECRET_KEY` (the `mac` parameter models
the HMAC over the payload). -/
def createJwtToken (mac : String → JwtClaims × Nat × Nat → Nat)
    (jwtSecret : String) (walletAddress : String) (now : Nat) : Jwt :=
  let claims : JwtClaims := ⟨walletAddress⟩
  ⟨claims, now, now + 86400, mac jwtSecret (claims, now, now + 86400)⟩

/-- `jwt.verify` at the jsonwebtoken boundary: `decode` parses the token
string; verification fails on an undecodable token, a signature that
does not match the mac under the server secret, or an expired token
(`now ≥ exp`).  On success the decoded claims are returned. -/
def jwtVerify (decode : String → Option Jwt)
    (mac : String → JwtClaims × Nat × Nat → Nat) (jwtSecret : String)
    (now : Nat) (token : String) : Option JwtClaims :=
  match decode token with
  | none => none
  | some j =>
    if j.sig ≠ mac jwtSecret (j.claims, j.iat, j.exp) then none
    else if j.exp ≤ now then none
    else some j.claims

/-- Token extraction in `verifyToken` (lines 137-138):
`req.headers.authorization?.split(' ')[1]`. -/
def extractToken (authHeader : Option String) : Option String :=
  match authHeader with
  | none => none
  | some h => (jsSplitSpace h).get? 1

/-- `verifyToken` (lines 136-147): 401 `Unauthorized` when no token was
extracted (`token == null`), otherwise the library verification — 403
`Forbidden` when it errors, the decoded claims when it succeeds.
`verify` is the jsonwebtoken boundary (`jwtVerify` above, or abstract). -/
def verifyToken (verify : String → Option JwtClaims)
    (authHeader : Option String) : Except JsError JwtClaims :=
  match extractToken authHeader with
  | none => .error (HttpError "Unauthorized" 401)
  | some t =>
    match verify t with
    | none => .error (HttpError "Forbidden" 403)
    | some c => .ok c

/-- `authenticateToken` (lines 149-160): verify the token, query the
live contract read `contract.isGranted(decoded.walletAddress)`, throw
`HttpError('Unauthorized', 401)` when it returns false; any error —
including a rejected oracle call, `.error e` of the `isGranted`
parameter — is caught and forwarded unchanged via `next(err)`.
`.ok ()` is the `next()` call that admits the request. -/
def authenticateToken (verify : String → Option JwtClaims)
    (isGranted : String → Except JsError Bool)
    (authHeader : Option String) : Except JsError Unit :=
  match verifyToken verify authHeader with
  | .error e => .error e
  | .ok decoded =>
    match isGranted decoded.walletAddress with
    | .error e => .error e
    | .ok g => if !g then .error (HttpError "Unauthorized" 401) else .ok ()

/-- `GET /protected` (lines 162-164): the gate then the echo body; a
gate error goes through the centralized responder. -/
def protectedRoute (verify : String → Option JwtClaims)
    (isGranted : String → Except JsError Bool)
    (authHeader : Option String) : Nat × String :=
  match authenticateToken verify isGranted authHeader with
  | .ok _ => (200, "Hello! You are viewing protected content.")
  | .error e => errorHandler e

/-- A sequence of independent requests served by the stateless gate:
request `i` is served against that request's own Authorization header,
token verification and oracle snapshot (the server keeps no state
between requests, so the oracle family is indexed by the request). -/
def serveProtectedSeq (verify : Nat → String → Option JwtClaims)
    (isGranted : Nat → String → Except JsError Bool)
    (headers : Nat → Option String) (i : Nat) : Except JsError Unit :=
  authenticateToken (verify i) (isGranted i) (headers i)

/-- What the transport layer delivers for one adapter invocation: either
a response whose body arrives as a list of chunks, or a request-level
`'error'` event (e.g. connection refused) before any response. -/
inductive TransportEvent where
  | response (chunks : List String)
  | transportError (message : String)
  deriving DecidableEq, Repr

/-- How one invocation of the external query adapter ends. -/
inductive QueryOutcome where
  | callbackData (parsed : String)
  | callbackError (message : String)
  | uncaughtException (message : String)
  deriving DecidableEq, Repr

/-- `queryTheGraphStudioAPI` (lines 185-215).  The response chunks are
accumulated (`data += chunk`) and `callback(null, JSON.parse(data))`
runs on `'end'` (line 207); `parse` models `JSON.parse`, returning
`none` when it throws.  That throw happens inside the `'end'` listener
with no surrounding handler, so it surfaces as an uncaught exception —
the callback never runs.  `req.on('error', callback)` (line 210) is
registered inside the response callback, so a transport error that
occurs before any response has no listener either: it is likewise an
uncaught `'error'` event, and `callbackError` is unreachable on these
inputs. -/
def queryTheGraphStudioAPI (parse : String → Option String)
    (ev : TransportEvent) : QueryOutcome :=
  match ev with
  | .response chunks =>
    let data := chunks.foldl (· ++ ·) ""
    match parse data with
    | some v => .callbackData v
    | none => .uncaughtException "SyntaxError: Unexpected token in JSON"
  | .transportError m => .uncaughtException m

/-- How the admin routes (`/approved-wallets`, lines 217-233, and
`/submitted-wallets`, lines 235-251) end: a 200 with the adapter's data,
a 500 `HttpError` handed to `next`, or no response at all because the
adapter raised an uncaught exception. -/
inductive AdminRouteOutcome where
  | ok (parsed : String)
  | failed (e : JsError)
  | noResponse (message : String)
  deriving DecidableEq, Repr

/-- The `/approved-wallets` handler body around the adapter callback
(lines 226-232): `err` ↦ `next(new HttpError(..., 500))`, data ↦ 200. -/
def approvedWalletsRoute (parse : String → Option String)
    (ev : TransportEvent) : AdminRouteOutcome :=
  match queryTheGraphStudioAPI parse ev with
  | .callbackData v => .ok v
  | .callbackError _ =>
    .failed (HttpError "Error querying approved wallets with TheGraph Studio API" 500)
  | .uncaughtException m => .noResponse m

end SynthetixNode

namespace SynthetixNode

/-- Helper for `Char.toLower` reasoning: `Char.ofNat` at a valid
codepoint round-trips through `Char.toNat`. -/
theorem char_toNat_ofNat_of_valid {n : Nat} (h : n.isValidChar) :
    (Char.ofNat n).toNat = n := by
  rw [Char.ofNat, dif_pos h]
  rfl

/-- `Char.toLower` is idempotent: lowering an upper-case Latin letter
lands outside the 65-90 band, and every other character is unchanged. -/
theorem char_toLower_idem (c : Char) : c.toLower.toLower = c.toLower := by
  unfold Char.toLower
  by_cases h : 65 ≤ c.toNat ∧ c.toNat ≤ 90
  · rw [if_pos h]
    have hv : (c.toNat + 32).isValidChar := Or.inl (by omega)
    rw [char_toNat_ofNat_of_valid hv, if_neg (by omega)]
  · rw [if_neg h, if_neg h]

/-- `jsToLowerCase` is idempotent. -/
theorem jsToLowerCase_idem (s : String) :
    jsToLowerCase (jsToLowerCase s) = jsToLowerCase s := by
  unfold jsToLowerCase
  cases s with
  | mk data =>
    simp only [List.map_map]
    congr 1
    exact List.map_congr_left fun c _ => char_toLower_idem c

/-- C3: for every address and fixed secret, `generateNonce(A)` equals
`generateNonce(lowercase(A))`, and `generateNonce` (hence the `/signup`
response, which is computed from it with no persisted state) is
deterministic: repeated `/signup` requests for the same address return
the same nonce. -/
theorem generateNonce_case_insensitive (digest : String → String)
    (secret : String) (a : String) (isAddress : String → Bool) :
    generateNonce digest secret (jsToLowerCase a) = generateNonce digest secret a
    ∧ ∀ r₁ r₂ : Reply, r₁ = signupRoute isAddress digest secret (some a) →
        r₂ = signupRoute isAddress digest secret (some a) → r₁ = r₂ := by
  constructor
  · unfold generateNonce
    rw [jsToLowerCase_idem]
  · intro r₁ r₂ h₁ h₂
    rw [h₁, h₂]

/-- Witness for C3 at the concrete address `0xAbCd`. -/
theorem generateNonce_case_insensitive_witness :
    generateNonce id "s3cret" (jsToLowerCase "0xAbCd")
        = generateNonce id "s3cret" "0xAbCd"
    ∧ signupRoute (fun _ => true) id "s3cret" (some "0xAbCd")
        = signupRoute (fun _ => true) id "s3cret" (some "0xAbCd") :=
  ⟨(generateNonce_case_insensitive id "s3cret" "0xAbCd" (fun _ => true)).1,
   (generateNonce_case_insensitive id "s3cret" "0xAbCd" (fun _ => true)).2
      _ _ rfl rfl⟩

/-- C1: when both parameters are present (JS-truthy) and recovery yields
address `R`, `/verify` succeeds with a token iff the supplied nonce is
byte-for-byte equal to `generateNonce(R)`; when they differ it fails
with `Nonce mismatch` (400) and no token is issued. -/
theorem verify_token_iff_nonce_matches
    (recover : String → String → Option String) (digest : String → String)
    (secret : String) (n sm R : String)
    (hn : n ≠ "") (hsm : sm ≠ "") (hrec : recover n sm = some R) :
    ((∃ a, verifyRoute recover digest secret (some n) (some sm) = .token a)
      ↔ n = generateNonce digest secret R)
    ∧ (n = generateNonce digest secret R →
        verifyRoute recover digest secret (some n) (some sm) = .token R)
    ∧ (n ≠ generateNonce digest secret R →
        verifyRoute recover digest secret (some n) (some sm)
            = .failed (HttpError "Nonce mismatch" 400)
          ∧ ∀ a, verifyRoute recover digest secret (some n) (some sm) ≠ .token a) := by
  have hred : verifyRoute recover digest secret (some n) (some sm)
      = if n = generateNonce digest secret R then VerifyOutcome.token R
        else .failed (HttpError "Nonce mismatch" 400) := by
    simp only [verifyRoute]
    rw [if_neg hn, if_neg hsm, hrec]
    by_cases h : n = generateNonce digest secret R
    · simp [h]
    · simp [h]
  by_cases heq : n = generateNonce digest secret R
  · rw [hred, if_pos heq]
    exact ⟨⟨fun _ => heq, fun _ => ⟨R, rfl⟩⟩, fun _ => rfl, fun hne => absurd heq hne⟩
  · rw [hred, if_neg heq]
    exact ⟨⟨fun ⟨a, ha⟩ => VerifyOutcome.noConfusion ha, fun h => absurd h heq⟩,
      fun h => absurd h heq,
      fun _ => ⟨rfl, fun a ha => VerifyOutcome.noConfusion ha⟩⟩

/-- Witness for C1: a matching nonce yields the token for the recovered
address; a mismatched nonce yields `Nonce mismatch`. -/
theorem verify_token_iff_nonce_matches_witness :
    verifyRoute (fun _ _ => some "0xAb12") id "s" (some "0xab12:s") (some "0xsig")
        = .token "0xAb12"
    ∧ verifyRoute (fun _ _ => some "0xAb12") id "s" (some "stale") (some "0xsig")
        = .failed (HttpError "Nonce mismatch" 400) :=
  ⟨(verify_token_iff_nonce_matches (fun _ _ => some "0xAb12") id "s"
      "0xab12:s" "0xsig" "0xAb12" (by decide) (by decide) rfl).2.1 (by decide),
   ((verify_token_iff_nonce_matches (fun _ _ => some "0xAb12") id "s"
      "stale" "0xsig" "0xAb12" (by decide) (by decide) rfl).2.2 (by decide)).1⟩

/-- C2 (code behavior at the failing input): when signature recovery
throws, `getAddressFromMessage` hands `Failed to verify message` (400)
to `next` but returns `undefined`, and `verifyMessage` does not
short-circuit: it goes on to call `generateNonce(undefined)`, which
throws a `TypeError` after the 400 response — the expected nonce is
(erroneously) regenerated on the failure path, though no token is ever
issued. -/
theorem verify_recovery_error_does_not_short_circuit :
    verifyRoute (fun _ _ => none) id "s" (some "n0nce") (some "0xsig")
      = .failedThenTypeError (HttpError "Failed to verify message" 400) := by
  decide

/-- C5: a request to a granted-gated route carrying a token that
verifies to wallet `W` is admitted (`next()` runs) iff the oracle query
issued within that same request returns true for `W`; since the server
is stateless, request `i`'s outcome is a function of request `i`'s own
header, verification and oracle snapshot alone — nothing is cached
across requests. -/
theorem grantedGate_admits_iff_oracle_now
    (verify : Nat → String → Option JwtClaims)
    (isGranted : Nat → String → Except JsError Bool)
    (headers : Nat → Option String) (i : Nat) (W : String)
    (htok : verifyToken (verify i) (headers i) = .ok ⟨W⟩) :
    (serveProtectedSeq verify isGranted headers i = .ok ()
      ↔ isGranted i W = .ok true)
    ∧ serveProtectedSeq verify isGranted headers i
        = authenticateToken (verify i) (isGranted i) (headers i) := by
  refine ⟨?_, rfl⟩
  unfold serveProtectedSeq authenticateToken
  rw [htok]
  cases hg : isGranted i W with
  | error e => simp [hg]
  | ok g =>
    cases g with
    | false => simp [hg, HttpError]
    | true => simp [hg]

/-- The per-request oracle family used by the C5 witness: the same
wallet is granted on request 0 and no longer granted on request 1. -/
def isGrantedW : Nat → String → Except JsError Bool :=
  fun i _ => .ok (i == 0)

/-- The token-verification family used by the C5 witness. -/
def verifyW : Nat → String → Option JwtClaims :=
  fun _ t => if t = "tok" then some ⟨"0xa"⟩ else none

/-- The header family used by the C5 witness. -/
def headersW : Nat → Option String :=
  fun _ => some "Bearer tok"

/-- Witness for C5: with the same valid token for the same wallet,
request 0 is admitted and request 1 is rejected once the oracle's
answer changes — the oracle result is not reused. -/
theorem grantedGate_admits_iff_oracle_now_witness :
    serveProtectedSeq verifyW isGrantedW headersW 0 = .ok ()
    ∧ serveProtectedSeq verifyW isGrantedW headersW 1 ≠ .ok () :=
  ⟨(grantedGate_admits_iff_oracle_now verifyW isGrantedW headersW 0 "0xa"
      rfl).1.mpr rfl,
   fun h => by
     have h2 := (grantedGate_admits_iff_oracle_now verifyW isGrantedW headersW 1 "0xa"
        rfl).1.mp h
     simp [isGrantedW] at h2⟩

/-- C6 fails on the code: `verifyMessage` stores the recovered address
verbatim in `res.locals.address` (line 105) and `createJwtToken` signs
it unchanged (line 120), so a checksum-cased recovered address is
placed in the credential as-is, not lowercased. -/
theorem verify_credential_not_lowercased_cx :
    verifyRoute (fun _ _ => some "0xAb12") id "s" (some "0xab12:s") (some "0xsig")
        = .token "0xAb12"
    ∧ "0xAb12" ≠ jsToLowerCase "0xAb12" := by
  decide

/-- C6 as amended: the `/signup` boundary lowercases
(`transformWalletAddress`) and nonce hashing lowercases internally, but
`/verify` puts the recovered address into the session credential
verbatim (checksum case preserved): the credential address equals the
recovery result exactly, and lowercasing it would not change the nonce
it hashes to. -/
theorem verify_credential_address_verbatim
    (recover : String → String → Option String) (digest : String → String)
    (secret : String) (n sm R a : String)
    (hrec : recover n sm = some R)
    (htok : verifyRoute recover digest secret (some n) (some sm) = .token a) :
    a = R
    ∧ generateNonce digest secret a = generateNonce digest secret (jsToLowerCase a)
    ∧ ∀ (isAddress : String → Bool) (w : String),
        signupRoute isAddress digest secret (some w)
          = signupRoute isAddress digest secret (some w) := by
  have ha : a = R := by
    by_cases hn : n = ""
    · simp [verifyRoute, hn] at htok
    · by_cases hsm : sm = ""
      · simp [verifyRoute, hn, hsm] at htok
      · simp only [verifyRoute] at htok
        rw [if_neg hn, if_neg hsm, hrec] at htok
        by_cases heq : n = generateNonce digest secret R
        · simpa [heq] using htok.symm
        · simp [heq] at htok
  subst ha
  refine ⟨rfl, ?_, fun _ _ => rfl⟩
  unfold generateNonce
  rw [jsToLowerCase_idem]

/-- The library verification fails exactly when the token does not
decode to a structure whose signature matches the mac and whose expiry
is still in the future. -/
theorem jwtVerify_eq_none_iff (decode : String → Option Jwt)
    (mac : String → JwtClaims × Nat × Nat → Nat) (jwtSecret : String)
    (now : Nat) (t : String) :
    jwtVerify decode mac jwtSecret now t = none
      ↔ ¬ ∃ j, decode t = some j
          ∧ j.sig = mac jwtSecret (j.claims, j.iat, j.exp) ∧ now < j.exp := by
  unfold jwtVerify
  cases hd : decode t with
  | none => simp
  | some j =>
    by_cases hs : j.sig = mac jwtSecret (j.claims, j.iat, j.exp)
    · by_cases he : j.exp ≤ now
      · simp [hs, he, Nat.not_lt.mpr he]
      · simp [hs, he, Nat.lt_of_not_le he]
    · simp [hs]

/-- C4: `verifyToken` fails with `Unauthorized` (401) iff no bearer
token is extracted from the Authorization header; given an extracted
token it fails with `Forbidden` (403) iff the token does not verify
(undecodable, signature mismatch, or expired) and otherwise returns the
decoded claims; and a token issued by `createJwtToken` at time `i` is
accepted at time `now` iff `now < i + 86400` — past the 1-day expiry it
is rejected with `Forbidden`. -/
theorem verifyToken_status_characterization (decode : String → Option Jwt)
    (mac : String → JwtClaims × Nat × Nat → Nat) (jwtSecret : String)
    (now : Nat) (authHeader : Option String) :
    (verifyToken (jwtVerify decode mac jwtSecret now) authHeader
        = .error (HttpError "Unauthorized" 401) ↔ extractToken authHeader = none)
    ∧ (∀ t, extractToken authHeader = some t →
        (verifyToken (jwtVerify decode mac jwtSecret now) authHeader
            = .error (HttpError "Forbidden" 403)
          ↔ ¬ ∃ j, decode t = some j
              ∧ j.sig = mac jwtSecret (j.claims, j.iat, j.exp) ∧ now < j.exp))
    ∧ (∀ t j, extractToken authHeader = some t → decode t = some j →
        j.sig = mac jwtSecret (j.claims, j.iat, j.exp) → now < j.exp →
        verifyToken (jwtVerify decode mac jwtSecret now) authHeader = .ok j.claims)
    ∧ (∀ t w i, extractToken authHeader = some t →
        decode t = some (createJwtToken mac jwtSecret w i) →
        (verifyToken (jwtVerify decode mac jwtSecret now) authHeader
            = .ok ⟨w⟩ ↔ now < i + 86400)) := by
  cases hE : extractToken authHeader with
  | none =>
    refine ⟨?_, ?_, ?_, ?_⟩
    · unfold verifyToken
      rw [hE]
      simp
    · intro t ht
      exact Option.noConfusion ht
    · intro t j ht
      exact Option.noConfusion ht
    · intro t w i ht
      exact Option.noConfusion ht
  | some t0 =>
    have hwork : verifyToken (jwtVerify decode mac jwtSecret now) authHeader
        = match jwtVerify decode mac jwtSecret now t0 with
          | none => .error (HttpError "Forbidden" 403)
          | some c => .ok c := by
      unfold verifyToken
      rw [hE]
    refine ⟨?_, ?_, ?_, ?_⟩
    · rw [hwork]
      cases hv : jwtVerify decode mac jwtSecret now t0 with
      | none => simp [HttpError]
      | some c => simp
    · intro t ht
      obtain rfl := Option.some.inj ht
      rw [hwork, ← jwtVerify_eq_none_iff decode mac jwtSecret now t0]
      cases hv : jwtVerify decode mac jwtSecret now t0 with
      | none => simp
      | some c => simp
    · intro t j ht hd hs he
      obtain rfl := Option.some.inj ht
      rw [hwork]
      unfold jwtVerify
      rw [hd]
      simp [hs, Nat.not_le.mpr he]
    · intro t w i ht hd
      obtain rfl := Option.some.inj ht
      rw [hwork]
      unfold jwtVerify
      rw [hd]
      by_cases hexp : i + 86400 ≤ now
      · simp [createJwtToken, hexp, Nat.not_lt.mpr hexp]
      · simp [createJwtToken, hexp, Nat.lt_of_not_le hexp]

/-- The mac used by the C4 witness. -/
def macW : String → JwtClaims × Nat × Nat → Nat := fun _ _ => 7

/-- The token decoder used by the C4 witness: `"tok"` decodes to a
token issued for wallet `0xa` at time 100. -/
def decodeW : String → Option Jwt :=
  fun s => if s = "tok" then some (createJwtToken macW "k" "0xa" 100) else none

/-- Witness for C4: a missing header is 401; the freshly issued token is
accepted at time 200; the same token is rejected at time 100000 (past
the 1-day expiry). -/
theorem verifyToken_status_characterization_witness :
    verifyToken (jwtVerify decodeW macW "k" 200) none
        = .error (HttpError "Unauthorized" 401)
    ∧ verifyToken (jwtVerify decodeW macW "k" 200) (some "Bearer tok")
        = .ok ⟨"0xa"⟩
    ∧ verifyToken (jwtVerify decodeW macW "k" 100000) (some "Bearer tok")
        ≠ .ok ⟨"0xa"⟩ :=
  ⟨(verifyToken_status_characterization decodeW macW "k" 200 none).1.mpr rfl,
   ((verifyToken_status_characterization decodeW macW "k" 200
      (some "Bearer tok")).2.2.2 "tok" "0xa" 100 (by decide) rfl).mpr (by decide),
   fun h => by
     have := ((verifyToken_status_characterization decodeW macW "k" 100000
        (some "Bearer tok")).2.2.2 "tok" "0xa" 100 (by decide) rfl).mp h
     omega⟩


/-- Witness for the amended C6, at the concrete checksum-cased recovered
address `0xAb12`. -/
theorem verify_credential_address_verbatim_witness :
    ("0xAb12" : String) = "0xAb12"
    ∧ generateNonce id "s" "0xAb12" = generateNonce id "s" (jsToLowerCase "0xAb12")
    ∧ ∀ (isAddress : String → Bool) (w : String),
        signupRoute isAddress id "s" (some w)
          = signupRoute isAddress id "s" (some w) :=
  verify_credential_address_verbatim (fun _ _ => some "0xAb12") id "s"
    "0xab12:s" "0xsig" "0xAb12" "0xAb12" rfl (by decide)

/-- The token verification used by the C7 demonstration: always yields
wallet `0xa`. -/
def verifyOkW : String → Option JwtClaims := fun _ => some ⟨"0xa"⟩

/-- C7 fails on the code: `authenticateToken` (and identically
`authenticateAdmin`) catches a rejected oracle call and forwards the
raw error unchanged to the centralized responder.  A rejection whose
error object carries code 401 (e.g. an HTTP 401 surfaced by the RPC
client) produces exactly the `(401, "Unauthorized")` of an explicit
denial, and a plain rejection with no code produces the default 500
with the raw message — no `OracleUnavailable` condition exists anywhere
in the code. -/
theorem oracleFailure_conflated_with_denial :
    protectedRoute verifyOkW (fun _ => .error ⟨"Unauthorized", some 401⟩)
        (some "Bearer tok")
      = protectedRoute verifyOkW (fun _ => .ok false) (some "Bearer tok")
    ∧ protectedRoute verifyOkW (fun _ => .error ⟨"Unauthorized", some 401⟩)
        (some "Bearer tok")
      = (401, "Unauthorized")
    ∧ protectedRoute verifyOkW (fun _ => .error ⟨"connect ECONNREFUSED", none⟩)
        (some "Bearer tok")
      = (500, "connect ECONNREFUSED") :=
  ⟨rfl, rfl, rfl⟩

/-- The `JSON.parse` stand-in used by the C8 demonstration: only the
body `"ok"` is valid JSON, parsing to `"parsed"`. -/
def parseW : String → Option String :=
  fun s => if s = "ok" then some "parsed" else none

/-- C8 fails on the code: a non-JSON response body throws inside the
unguarded `'end'` listener and a transport error before any response
has no `'error'` listener (line 210 registers it only once a response
arrives), so both end as uncaught exceptions — the callback is never
invoked and the admin route sends no 500.  Only the success case works:
the callback receives the parse of the full (chunk-concatenated) body. -/
theorem queryAdapter_uncaught_on_failure :
    approvedWalletsRoute parseW (.response ["<html>err", "or</html>"])
        = .noResponse "SyntaxError: Unexpected token in JSON"
    ∧ approvedWalletsRoute parseW (.transportError "connect ECONNREFUSED")
        = .noResponse "connect ECONNREFUSED"
    ∧ approvedWalletsRoute parseW (.response ["o", "k"]) = .ok "parsed" :=
  ⟨rfl, rfl, rfl⟩

/-- C9 fails as stated: an error whose declared numeric code is `0` is
answered with status 500, not with its declared code — `err.code || 500`
treats `0` as absent. -/
theorem errorHandler_zero_code_cx :
    errorHandler ⟨"boom", some 0⟩ = (500, "boom")
    ∧ (errorHandler ⟨"boom", some 0⟩).1 ≠ 0 := by
  decide

/-- C9 as amended: the responder's status is the declared code when a
nonzero one is present and 500 when the code is absent or `0` (JS
truthiness); the body is exactly the declared message when it is
nonempty and the generic `Something went wrong` otherwise — nothing
else is included in the response. -/
theorem errorHandler_truthy_characterization (e : JsError) :
    (∀ c, e.code = some c → c ≠ 0 → errorHandler e = (c, jsOrStr e.message "Something went wrong"))
    ∧ ((e.code = none ∨ e.code = some 0) → (errorHandler e).1 = 500)
    ∧ (e.message ≠ "" → (errorHandler e).2 = e.message)
    ∧ (e.message = "" → (errorHandler e).2 = "Something went wrong") := by
  obtain ⟨m, c⟩ := e
  refine ⟨?_, ?_, ?_, ?_⟩
  · intro c0 hc hc0
    cases hc
    simp [errorHandler, jsOrNum, hc0]
  · rintro (hc | hc) <;> cases hc <;> simp [errorHandler, jsOrNum]
  · intro hm
    simp [errorHandler, jsOrStr, hm]
  · intro hm
    cases hm
    simp [errorHandler, jsOrStr]

/-- Witness for the amended C9 at a declared 404 with message `gone`. -/
theorem errorHandler_truthy_characterization_witness :
    errorHandler ⟨"gone", some 404⟩ = (404, jsOrStr "gone" "Something went wrong")
    ∧ (errorHandler ⟨"gone", some 404⟩).2 = "gone" :=
  ⟨(errorHandler_truthy_characterization ⟨"gone", some 404⟩).1 404 rfl (by decide),
   (errorHandler_truthy_characterization ⟨"gone", some 404⟩).2.2.1 (by decide)⟩

/-- C10: when the Authorization header is present but has no second
space-separated part (e.g. it is exactly `Bearer`), the extracted token
is `undefined`, so `verifyToken` fails with the missing-token 401
`Unauthorized` — not the 403 `Forbidden` of cryptographic rejection —
whatever the verification library would say. -/
theorem headerWithoutToken_unauthorized (h : String)
    (hsplit : (jsSplitSpace h).get? 1 = none)
    (verify : String → Option JwtClaims) :
    verifyToken verify (some h) = .error (HttpError "Unauthorized" 401)
    ∧ verifyToken verify (some h) ≠ .error (HttpError "Forbidden" 403) := by
  have he : extractToken (some h) = none := hsplit
  unfold verifyToken
  rw [he]
  exact ⟨rfl, by simp [HttpError]⟩

/-- Witness for C10 at the header `Bearer` with an always-failing
verifier. -/
theorem headerWithoutToken_unauthorized_witness :
    verifyToken (fun _ => none) (some "Bearer")
        = .error (HttpError "Unauthorized" 401)
    ∧ verifyToken (fun _ => none) (some "Bearer")
        ≠ .error (HttpError "Forbidden" 403) :=
  headerWithoutToken_unauthorized "Bearer" (by decide) (fun _ => none)

end SynthetixNode
